import Mathlib

/-!
Shallow embedding of the `news-classification-gpu` notebook, in particular of
the service module it writes to `bento_svc.py`:

* `get_pipeline`, `to_numpy` — module-level helper functions;
* `OnnxService` with methods `classify_categories` and `predict`;
* the notebook's top-level cell sequence (vocab building, model export,
  checker validation, packing, serving, containerization).

Python exceptions are modelled with `Except PyError`; Python `None` and JSON
values with `PyVal`; a parsed JSON object with an association list
`List (String × PyVal)`; the `print` calls with an explicit log (`LogEntry`).
The packed artifacts (tokenizer, vocabulary, ONNX inference session) are
external inputs of the service, so they appear as abstract parameters: a
tokenizer `String → List String`, a vocabulary lookup `String → Nat`
(torchtext's `Vocab` is total, unknown tokens map to a default index), and an
`InferenceSession` whose `run` may either produce output arrays or raise.
-/

set_option autoImplicit false

/-- The Python exception kinds that can arise in the service code:
`RuntimeError` and `onnxruntime`'s `InvalidArgument` (the two caught kinds),
plus `KeyError` (dict subscript misses), `AttributeError` (calling a string
method, e.g. `.lower()` inside the `basic_english` tokenizer, on a non-string
such as `None`), `ValueError` (numpy `argmax`/`item` on empty data) and
`IndexError` (subscripting an empty list). -/
inductive PyError where
  | runtimeError
  | invalidArgument
  | keyError
  | attributeError
  | valueError
  | indexError
deriving DecidableEq, Repr

/-- A Python/JSON value as far as the service observes one: `None`, a string,
or an integer (standing for any non-string value a JSON body may carry). -/
inductive PyVal where
  | none
  | str (s : String)
  | int (n : Int)
deriving DecidableEq, Repr

/-- A torch device, as selected by
`torch.device("cuda:0" if torch.cuda.is_available() else "cpu")`. -/
inductive Device where
  | cpu
  | cuda
deriving DecidableEq, Repr

/-- A torch tensor as far as `to_numpy` observes one: its numeric contents
(the vocabulary indices flowing through the service are naturals), its
`requires_grad` flag and the device it lives on. -/
structure Tensor where
  values : List Nat
  requires_grad : Bool
  device : Device
deriving DecidableEq, Repr

/-- `.detach()`: same values, drops the gradient requirement. -/
def Tensor.detach (t : Tensor) : Tensor :=
  { t with requires_grad := false }

/-- `.cpu()`: same values, moved to the CPU device. -/
def Tensor.cpu (t : Tensor) : Tensor :=
  { t with device := Device.cpu }

/-- `.clone()`: a copy with identical contents. -/
def Tensor.clone (t : Tensor) : Tensor :=
  t

/-- `.to(device)`: same values, moved to the given device. -/
def Tensor.to (t : Tensor) (d : Device) : Tensor :=
  { t with device := d }

/-- `.numpy()`: succeeds only on a CPU tensor that does not require
gradients (torch raises `RuntimeError`/`TypeError` otherwise), and then
yields exactly the tensor's numeric contents. -/
def Tensor.numpy (t : Tensor) : Option (List Nat) :=
  if t.requires_grad = false ∧ t.device = Device.cpu then some t.values else none

/-- `torch.tensor(list)`: a fresh CPU tensor of the given values, with
`requires_grad` off (the default). -/
def torchTensor (l : List Nat) : Tensor :=
  ⟨l, false, Device.cpu⟩

/-- `to_numpy` from `bento_svc.py`:
`tensor.detach().cpu().clone().numpy() if tensor.requires_grad else
tensor.cpu().clone().numpy()`. -/
def to_numpy (tensor : Tensor) : Option (List Nat) :=
  if tensor.requires_grad then tensor.detach.cpu.clone.numpy
  else tensor.cpu.clone.numpy

/-- `get_pipeline` from `bento_svc.py`: returns the pair of
`text_pipeline = lambda x: [vocab[token] for token in tokenizer(x)]` and
`label_pipeline = lambda x: int(x) - 1`. -/
def get_pipeline (tokenizer : String → List String) (vocab : String → Nat) :
    (String → List Nat) × (Int → Int) :=
  (fun x => (tokenizer x).map (fun token => vocab token), fun x => x - 1)

/-- Applying a function that expects a string to an arbitrary Python value:
on a non-string argument (`None`, an int, …) the `basic_english` tokenizer's
first string-method call raises `AttributeError`. -/
def pyCallStrFun {α : Type} (f : String → α) : PyVal → Except PyError α
  | PyVal.str s => Except.ok (f s)
  | _ => Except.error PyError.attributeError

/-- Index of the first maximal entry of a list, as `numpy.argmax` computes it
on a nonempty axis (on `[]` we return `0`; `argmax_axis1` below never calls
it on an empty row). -/
def argmaxIdx : List Int → Nat
  | [] => 0
  | [_] => 0
  | x :: y :: ys =>
    if x < (y :: ys).getD (argmaxIdx (y :: ys)) 0 then argmaxIdx (y :: ys) + 1 else 0

/-- `r.argmax(1)` on a two-dimensional array given as its list of rows:
raises `ValueError` if some row is empty, else takes each row's argmax. -/
def argmax_axis1 (r : List (List Int)) : Except PyError (List Nat) :=
  if r.any (fun row => row.isEmpty) then Except.error PyError.valueError
  else Except.ok (r.map argmaxIdx)

/-- `.item()` on a one-dimensional array: its sole entry, `ValueError` if the
array does not have exactly one entry. -/
def npItem (l : List Nat) : Except PyError Nat :=
  match l with
  | [x] => Except.ok x
  | _ => Except.error PyError.valueError

/-- Python `d[k]` on an integer-keyed dict (an association list; `find?`
takes the first matching key): `some` value or a miss. -/
def dict_getitem (d : List (Nat × String)) (k : Nat) : Option String :=
  match d.find? (fun p => p.1 == k) with
  | some p => some p.2
  | none => none

/-- Python `d[k]` where the subscript may be `None` (the value
`classify_categories` produces on its caught-error path): `None` is never a
key of an integer-keyed dict, so the lookup misses. -/
def dict_getitem_opt (d : List (Nat × String)) (k : Option Nat) : Option String :=
  match k with
  | some n => dict_getitem d n
  | none => none

/-- Python `parsed_json.get(k)` on a JSON object: the first value bound to
`k`, or `None` when the key is absent. -/
def dict_get (d : List (String × PyVal)) (k : String) : PyVal :=
  match d.find? (fun p => p.1 == k) with
  | some p => p.2
  | none => PyVal.none

/-- The packed ONNX runtime inference session: the input/output names
reported by `get_inputs()[0].name` / `get_outputs()[0].name`, the provider
list reported by `get_providers()`, and `run(output_names, input_feed)`,
which either raises or produces one two-dimensional output array (rows of
scores) per requested output name. -/
structure InferenceSession where
  inputName : String
  outputName : String
  get_providers : List String
  run : List String → List (String × List Nat) →
    Except PyError (List (List (List Int)))

/-- One `print` call of the service code: `'Setup pipeline...'` from
`get_pipeline`, the provider list, or the caught-error message
`ERROR with shape: ...` carrying the offending input's shape (its length;
the array is one-dimensional) and the exception. -/
inductive LogEntry where
  | setupPipeline
  | providers (ps : List String)
  | errorShape (shape : Nat) (e : PyError)
deriving DecidableEq, Repr

/-- The `OnnxService` object: its three packed artifacts and the
`news_label` dict its `__init__` assigns. -/
structure OnnxService where
  tokenizer : String → List String
  vocab : String → Nat
  model : InferenceSession
  news_label : List (Nat × String)

/-- Constructing the service (`OnnxService.__init__` plus packing the three
artifacts): the only assignment `__init__` performs is the `news_label`
dict literal. -/
def OnnxService.init (tokenizer : String → List String) (vocab : String → Nat)
    (model : InferenceSession) : OnnxService :=
  { tokenizer := tokenizer
    vocab := vocab
    model := model
    news_label := [(1, "World"), (2, "Sports"), (3, "Business"), (4, "Sci/Tec")] }

/-- The outcome of calling a method on the service: the returned value or the
exception it raises, the `print` output it emitted, and the object's state
when the call ends. -/
structure MethodResult (α : Type) where
  ret : Except PyError α
  log : List LogEntry
  self : OnnxService

/-- `OnnxService.classify_categories(sentence)`, over the module-level
`device`:

* `text_pipeline, _ = get_pipeline(tokenizer, vocab)` (prints
  `Setup pipeline...`), then `text_pipeline(sentence)` — raises on a
  non-string `sentence`;
* `text = to_numpy(torch.tensor(...).to(device))`;
* builds `onnx_inputs = {input_name: text}`, prints the providers;
* `try:` `r = run([output_name], onnx_inputs)[0]`, then
  `return r.argmax(1).item() + 1`;
* `except (RuntimeError, InvalidArgument)`: prints the offending shape and
  falls off the end of the function, returning `None`.

No branch ever assigns to `self`. -/
def OnnxService.classify_categories (svc : OnnxService) (device : Device)
    (sentence : PyVal) : MethodResult (Option Nat) :=
  match pyCallStrFun (get_pipeline svc.tokenizer svc.vocab).1 sentence with
  | Except.error e => ⟨Except.error e, [LogEntry.setupPipeline], svc⟩
  | Except.ok idxs =>
    match to_numpy ((torchTensor idxs).to device) with
    | none => ⟨Except.error PyError.runtimeError, [LogEntry.setupPipeline], svc⟩
    | some text =>
      let tensor_name := svc.model.inputName
      let output_name := svc.model.outputName
      let onnx_inputs := [(tensor_name, text)]
      let log0 := [LogEntry.setupPipeline, LogEntry.providers svc.model.get_providers]
      match svc.model.run [output_name] onnx_inputs with
      | Except.ok outs =>
        match outs with
        | [] => ⟨Except.error PyError.indexError, log0, svc⟩
        | r :: _ =>
          match argmax_axis1 r with
          | Except.error e => ⟨Except.error e, log0, svc⟩
          | Except.ok idxRow =>
            match npItem idxRow with
            | Except.error e => ⟨Except.error e, log0, svc⟩
            | Except.ok k => ⟨Except.ok (some (k + 1)), log0, svc⟩
      | Except.error e =>
        if e = PyError.runtimeError ∨ e = PyError.invalidArgument then
          ⟨Except.ok none, log0 ++ [LogEntry.errorShape text.length e], svc⟩
        else
          ⟨Except.error e, log0, svc⟩

/-- `OnnxService.predict(parsed_json)`:
`sentence = parsed_json.get('text')`, then
`return {'categories': self.news_label[self.classify_categories(sentence)]}`.
An exception from `classify_categories` propagates; a `news_label` subscript
miss (in particular a `None` subscript) raises `KeyError`. -/
def OnnxService.predict (svc : OnnxService) (device : Device)
    (parsed_json : List (String × PyVal)) : MethodResult (List (String × PyVal)) :=
  let sentence := dict_get parsed_json "text"
  let c := svc.classify_categories device sentence
  match c.ret with
  | Except.error e => ⟨Except.error e, c.log, c.self⟩
  | Except.ok k =>
    match dict_getitem_opt c.self.news_label k with
    | none => ⟨Except.error PyError.keyError, c.log, c.self⟩
    | some label => ⟨Except.ok [("categories", PyVal.str label)], c.log, c.self⟩

/-- A top-level step of the notebook, in the granularity of its cells'
calls. -/
inductive NotebookStep where
  | buildVocabTokenizer
  | setupModelParams
  | instantiateLoadModel
  | exportOnnx
  | loadOnnxForCheck
  | checkModel
  | instantiateService
  | packService
  | saveService
  | serveCommand
  | containerizeCommand
deriving DecidableEq, BEq, Repr

/-- The notebook's cells in execution order: the packing cell runs
`get_tokenizer_vocab()`, `get_model_params(vocab)`, model construction with
`load_state_dict` and `torch.onnx.export(...)`; the next cell runs
`onnx.load`, `onnx.checker.check_model`, `OnnxService()`, the three
`bento_svc.pack(...)` calls and `save()`; then come the
`bentoml serve` and `bentoml containerize` command cells. -/
def notebook_script : List NotebookStep :=
  [NotebookStep.buildVocabTokenizer,
   NotebookStep.setupModelParams,
   NotebookStep.instantiateLoadModel,
   NotebookStep.exportOnnx,
   NotebookStep.loadOnnxForCheck,
   NotebookStep.checkModel,
   NotebookStep.instantiateService,
   NotebookStep.packService,
   NotebookStep.saveService,
   NotebookStep.serveCommand,
   NotebookStep.containerizeCommand]

/-! ### Helper lemmas -/

lemma argmaxIdx_cons_lt_length (x : Int) (xs : List Int) :
    argmaxIdx (x :: xs) < (x :: xs).length := by
  induction xs generalizing x with
  | nil => simp [argmaxIdx]
  | cons y ys ih =>
    simp only [argmaxIdx]
    split
    · have := ih y
      simp only [List.length_cons] at *
      omega
    · simp

lemma getD_le_getD_argmaxIdx (l : List Int) (i : Nat) (h : i < l.length) :
    l.getD i 0 ≤ l.getD (argmaxIdx l) 0 := by
  induction l generalizing i with
  | nil => simp at h
  | cons x xs ih =>
    cases xs with
    | nil =>
      have : i = 0 := by simpa using Nat.lt_one_iff.mp (by simpa using h)
      subst this
      simp [argmaxIdx]
    | cons y ys =>
      simp only [argmaxIdx]
      by_cases hx : x < (y :: ys).getD (argmaxIdx (y :: ys)) 0
      · rw [if_pos hx]
        cases i with
        | zero =>
          simpa using le_of_lt hx
        | succ k =>
          have hk : k < (y :: ys).length := by simpa using h
          simpa using ih k hk
      · rw [if_neg hx]
        cases i with
        | zero => simp
        | succ k =>
          have hk : k < (y :: ys).length := by simpa using h
          have h1 := ih k hk
          simp only [List.getD_cons_succ, List.getD_cons_zero] at *
          omega

lemma classify_categories_run_ok (svc : OnnxService) (device : Device) (s : String)
    (row : List Int) (hrow : row ≠ [])
    (hrun : svc.model.run [svc.model.outputName]
      [(svc.model.inputName, (svc.tokenizer s).map svc.vocab)] = Except.ok [[row]]) :
    svc.classify_categories device (PyVal.str s) =
      ⟨Except.ok (some (argmaxIdx row + 1)),
       [LogEntry.setupPipeline, LogEntry.providers svc.model.get_providers], svc⟩ := by
  cases row with
  | nil => exact absurd rfl hrow
  | cons a as =>
    unfold OnnxService.classify_categories
    simp [pyCallStrFun, get_pipeline, to_numpy, Tensor.to, torchTensor, Tensor.cpu,
      Tensor.clone, Tensor.numpy, hrun, argmax_axis1, npItem]

lemma classify_categories_run_error (svc : OnnxService) (device : Device) (s : String)
    (e : PyError)
    (hrun : svc.model.run [svc.model.outputName]
      [(svc.model.inputName, (svc.tokenizer s).map svc.vocab)] = Except.error e) :
    svc.classify_categories device (PyVal.str s) =
      if e = PyError.runtimeError ∨ e = PyError.invalidArgument then
        ⟨Except.ok none,
         [LogEntry.setupPipeline, LogEntry.providers svc.model.get_providers,
          LogEntry.errorShape ((svc.tokenizer s).map svc.vocab).length e], svc⟩
      else
        ⟨Except.error e,
         [LogEntry.setupPipeline, LogEntry.providers svc.model.get_providers], svc⟩ := by
  unfold OnnxService.classify_categories
  simp [pyCallStrFun, get_pipeline, to_numpy, Tensor.to, torchTensor, Tensor.cpu,
    Tensor.clone, Tensor.numpy, hrun]

lemma classify_categories_non_str (svc : OnnxService) (device : Device) (v : PyVal)
    (hv : ∀ s : String, v ≠ PyVal.str s) :
    svc.classify_categories device v =
      ⟨Except.error PyError.attributeError, [LogEntry.setupPipeline], svc⟩ := by
  unfold OnnxService.classify_categories
  cases v with
  | none => simp [pyCallStrFun]
  | str s => exact absurd rfl (hv s)
  | int n => simp [pyCallStrFun]

lemma dict_get_of_key_absent (d : List (String × PyVal)) (k : String)
    (h : ∀ p ∈ d, p.1 ≠ k) : dict_get d k = PyVal.none := by
  have hfind : d.find? (fun p => p.1 == k) = none := by
    rw [List.find?_eq_none]
    intro p hp
    simpa using h p hp
  simp [dict_get, hfind]

lemma classify_categories_self (svc : OnnxService) (device : Device) (sentence : PyVal) :
    (svc.classify_categories device sentence).self = svc := by
  unfold OnnxService.classify_categories
  dsimp only
  repeat' first
  | rfl
  | split

lemma predict_self (svc : OnnxService) (device : Device)
    (parsed_json : List (String × PyVal)) :
    (svc.predict device parsed_json).self = svc := by
  unfold OnnxService.predict
  dsimp only
  split
  · exact classify_categories_self svc device (dict_get parsed_json "text")
  · split
    · exact classify_categories_self svc device (dict_get parsed_json "text")
    · exact classify_categories_self svc device (dict_get parsed_json "text")

/-! ### Concrete artifacts used by the witness theorems -/

/-- A sample tokenizer: the whole input as a single token. -/
def sampleTokenizer : String → List String := fun s => [s]

/-- A sample vocabulary lookup. -/
def sampleVocab : String → Nat := fun _ => 7

/-- A session that always succeeds with the score matrix `[[1, 5, 3, 2]]`. -/
def okSession : InferenceSession :=
  { inputName := "input"
    outputName := "output"
    get_providers := ["CUDAExecutionProvider", "CPUExecutionProvider"]
    run := fun _ _ => Except.ok [[[1, 5, 3, 2]]] }

/-- A session whose `run` always raises `RuntimeError`. -/
def errSession : InferenceSession :=
  { inputName := "input"
    outputName := "output"
    get_providers := ["CPUExecutionProvider"]
    run := fun _ _ => Except.error PyError.runtimeError }

/-- The service packed with the always-succeeding session. -/
def okSvc : OnnxService := OnnxService.init sampleTokenizer sampleVocab okSession

/-- The service packed with the always-failing session. -/
def errSvc : OnnxService := OnnxService.init sampleTokenizer sampleVocab errSession

/-! ### Claim theorems -/

/-- C4: for every input string, the text pipeline built by `get_pipeline`
computes exactly `[vocab[token] for token in tokenizer(x)]`: the output has
the same length as the token list, and position `i` of the output is the
vocabulary index of position `i` of the token list (stated for every `i`
via the optional-indexing equation). -/
theorem get_pipeline_text_pipeline_maps_vocab :
    ∀ (tokenizer : String → List String) (vocab : String → Nat) (x : String) (i : Nat),
      ((get_pipeline tokenizer vocab).1 x).length = (tokenizer x).length ∧
      ((get_pipeline tokenizer vocab).1 x)[i]? = ((tokenizer x)[i]?).map vocab := by
  intro tokenizer vocab x i
  constructor
  · simp [get_pipeline]
  · simp [get_pipeline]

/-- C5: `to_numpy` returns, for every tensor and whether or not it requires
gradients, exactly the tensor's numeric values (as a CPU numpy array); and
for a `requires_grad` tensor the detaching branch
`tensor.detach().cpu().clone().numpy()` agrees with what the plain branch
computes on the detached tensor. -/
theorem to_numpy_preserves_values :
    ∀ t : Tensor,
      to_numpy t = some t.values ∧
      (t.requires_grad = true →
        Tensor.numpy (Tensor.clone (Tensor.cpu (Tensor.detach t))) = to_numpy t.detach) := by
  intro t
  obtain ⟨v, g, d⟩ := t
  cases g <;> cases d <;>
    simp [to_numpy, Tensor.numpy, Tensor.detach, Tensor.cpu, Tensor.clone]

/-- Witness for C5 at the concrete tensor `⟨[3, 1], true, cuda⟩`. -/
theorem to_numpy_preserves_values_witness :
    to_numpy ⟨[3, 1], true, Device.cuda⟩ = some [3, 1] ∧
    Tensor.numpy (Tensor.clone (Tensor.cpu (Tensor.detach ⟨[3, 1], true, Device.cuda⟩))) =
      to_numpy (Tensor.detach ⟨[3, 1], true, Device.cuda⟩) :=
  ⟨(to_numpy_preserves_values ⟨[3, 1], true, Device.cuda⟩).1,
   (to_numpy_preserves_values ⟨[3, 1], true, Device.cuda⟩).2 rfl⟩

/-- C6: the notebook's cells execute vocabulary building, model
instantiation/loading, the ONNX export, the checker validation, the packing,
and the serving/containerization commands in this fixed order; in
particular the checker validation comes after the export and before the
packing, and each of those three steps occurs exactly once. -/
theorem notebook_script_order :
    List.indexOf NotebookStep.buildVocabTokenizer notebook_script <
      List.indexOf NotebookStep.instantiateLoadModel notebook_script ∧
    List.indexOf NotebookStep.instantiateLoadModel notebook_script <
      List.indexOf NotebookStep.exportOnnx notebook_script ∧
    List.indexOf NotebookStep.exportOnnx notebook_script <
      List.indexOf NotebookStep.checkModel notebook_script ∧
    List.indexOf NotebookStep.checkModel notebook_script <
      List.indexOf NotebookStep.packService notebook_script ∧
    List.indexOf NotebookStep.packService notebook_script <
      List.indexOf NotebookStep.serveCommand notebook_script ∧
    List.indexOf NotebookStep.serveCommand notebook_script <
      List.indexOf NotebookStep.containerizeCommand notebook_script ∧
    notebook_script.count NotebookStep.exportOnnx = 1 ∧
    notebook_script.count NotebookStep.checkModel = 1 ∧
    notebook_script.count NotebookStep.packService = 1 := by
  decide

/-- C7: `news_label` is the fixed dict `{1: 'World', 2: 'Sports',
3: 'Business', 4: 'Sci/Tec'}` set at construction; its key set is exactly
`{1, 2, 3, 4}`; and neither `classify_categories` nor `predict` ever
modifies the service object. -/
theorem news_label_fixed_and_immutable :
    ∀ (tokenizer : String → List String) (vocab : String → Nat) (model : InferenceSession)
      (n : Nat) (svc : OnnxService) (device : Device) (sentence : PyVal)
      (parsed_json : List (String × PyVal)),
      (OnnxService.init tokenizer vocab model).news_label =
        [(1, "World"), (2, "Sports"), (3, "Business"), (4, "Sci/Tec")] ∧
      ((dict_getitem (OnnxService.init tokenizer vocab model).news_label n).isSome ↔
        (n = 1 ∨ n = 2 ∨ n = 3 ∨ n = 4)) ∧
      (svc.classify_categories device sentence).self = svc ∧
      (svc.predict device parsed_json).self = svc := by
  intro tokenizer vocab model n svc device sentence parsed_json
  refine ⟨rfl, ?_, classify_categories_self svc device sentence,
    predict_self svc device parsed_json⟩
  show (dict_getitem [(1, "World"), (2, "Sports"), (3, "Business"), (4, "Sci/Tec")] n).isSome
    ↔ (n = 1 ∨ n = 2 ∨ n = 3 ∨ n = 4)
  rcases n with _ | _ | _ | _ | _ | n
  · decide
  · decide
  · decide
  · decide
  · decide
  · have h1 : ((1 : Nat) == n + 5) = false := beq_eq_false_iff_ne.mpr (by omega)
    have h2 : ((2 : Nat) == n + 5) = false := beq_eq_false_iff_ne.mpr (by omega)
    have h3 : ((3 : Nat) == n + 5) = false := beq_eq_false_iff_ne.mpr (by omega)
    have h4 : ((4 : Nat) == n + 5) = false := beq_eq_false_iff_ne.mpr (by omega)
    simp [dict_getitem, List.find?, h1, h2, h3, h4]

/-- C10: with the service object (hence its packed model, tokenizer and
vocabulary) held fixed, `predict` is deterministic: equal parsed JSON
inputs produce equal results. -/
theorem predict_deterministic :
    ∀ (svc : OnnxService) (device : Device)
      (parsed_json other_json : List (String × PyVal)),
      parsed_json = other_json →
      svc.predict device parsed_json = svc.predict device other_json := by
  intro svc device parsed_json other_json h
  rw [h]

/-- Witness for C10 on a concrete service and request. -/
theorem predict_deterministic_witness :
    okSvc.predict Device.cpu [("text", PyVal.str "hello")] =
      okSvc.predict Device.cpu [("text", PyVal.str "hello")] :=
  predict_deterministic okSvc Device.cpu [("text", PyVal.str "hello")]
    [("text", PyVal.str "hello")] rfl

/-- C2: `classify_categories` tokenizes the sentence, maps every token to
its vocabulary index, hands exactly that numeric array to the pre-loaded
inference session, and on success returns the index of the maximum output
component plus one: when `run` succeeds with score row `row`, the method
returns `argmaxIdx row + 1`, where `argmaxIdx row` is a valid index of
`row` at which `row` attains its maximum. -/
theorem classify_categories_pipeline_and_argmax :
    ∀ (svc : OnnxService) (device : Device) (s : String) (row : List Int) (i : Nat),
      svc.model.run [svc.model.outputName]
        [(svc.model.inputName, (svc.tokenizer s).map svc.vocab)] = Except.ok [[row]] →
      row ≠ [] → i < row.length →
      (svc.classify_categories device (PyVal.str s)).ret =
        Except.ok (some (argmaxIdx row + 1)) ∧
      argmaxIdx row < row.length ∧
      row.getD i 0 ≤ row.getD (argmaxIdx row) 0 := by
  intro svc device s row i hrun hrow hi
  refine ⟨?_, ?_, getD_le_getD_argmaxIdx row i hi⟩
  · rw [classify_categories_run_ok svc device s row hrow hrun]
  · cases row with
    | nil => exact absurd rfl hrow
    | cons a as => exact argmaxIdx_cons_lt_length a as

/-- Witness for C2: a concrete service whose session scores are
`[1, 5, 3, 2]`. -/
theorem classify_categories_pipeline_and_argmax_witness :
    (okSvc.classify_categories Device.cpu (PyVal.str "hello")).ret =
      Except.ok (some (argmaxIdx [1, 5, 3, 2] + 1)) ∧
    argmaxIdx [1, 5, 3, 2] < ([1, 5, 3, 2] : List Int).length ∧
    ([1, 5, 3, 2] : List Int).getD 2 0 ≤
      ([1, 5, 3, 2] : List Int).getD (argmaxIdx [1, 5, 3, 2]) 0 :=
  classify_categories_pipeline_and_argmax okSvc Device.cpu "hello" [1, 5, 3, 2] 2
    rfl (by decide) (by decide)

/-- C3: when the inference-session `run` call raises, the error is caught —
with the offending input's shape logged and `None` returned — exactly when
it is a `RuntimeError` or an `InvalidArgument`; any other exception kind is
not caught and propagates out of `classify_categories`. -/
theorem classify_categories_catch_iff :
    ∀ (svc : OnnxService) (device : Device) (s : String) (e : PyError),
      svc.model.run [svc.model.outputName]
        [(svc.model.inputName, (svc.tokenizer s).map svc.vocab)] = Except.error e →
      (((svc.classify_categories device (PyVal.str s)).ret = Except.ok none ∧
        LogEntry.errorShape ((svc.tokenizer s).map svc.vocab).length e ∈
          (svc.classify_categories device (PyVal.str s)).log) ↔
        (e = PyError.runtimeError ∨ e = PyError.invalidArgument)) ∧
      (¬(e = PyError.runtimeError ∨ e = PyError.invalidArgument) →
        (svc.classify_categories device (PyVal.str s)).ret = Except.error e) := by
  intro svc device s e hrun
  have hc := classify_categories_run_error svc device s e hrun
  by_cases hcase : e = PyError.runtimeError ∨ e = PyError.invalidArgument
  · rw [hc, if_pos hcase]
    simp [hcase]
  · rw [hc, if_neg hcase]
    simp [hcase]

/-- Witness for C3: a concrete service whose session raises `RuntimeError`;
the call is caught, returns `None` and logs the input's shape. -/
theorem classify_categories_catch_iff_witness :
    (errSvc.classify_categories Device.cpu (PyVal.str "x")).ret = Except.ok none ∧
    LogEntry.errorShape ((errSvc.tokenizer "x").map errSvc.vocab).length
        PyError.runtimeError ∈
      (errSvc.classify_categories Device.cpu (PyVal.str "x")).log :=
  ((classify_categories_catch_iff errSvc Device.cpu "x" PyError.runtimeError rfl).1).mpr
    (Or.inl rfl)

/-- C8: whenever the inference call fails with a caught error kind,
`classify_categories` returns `None`; `None` is not a key of the
integer-keyed `news_label` dict, so `predict` raises an uncaught `KeyError`
instead of returning a JSON response. -/
theorem predict_keyerror_on_inference_failure :
    ∀ (svc : OnnxService) (device : Device) (parsed_json : List (String × PyVal))
      (s : String) (e : PyError),
      dict_get parsed_json "text" = PyVal.str s →
      svc.model.run [svc.model.outputName]
        [(svc.model.inputName, (svc.tokenizer s).map svc.vocab)] = Except.error e →
      (e = PyError.runtimeError ∨ e = PyError.invalidArgument) →
      (svc.classify_categories device (PyVal.str s)).ret = Except.ok none ∧
      dict_getitem_opt svc.news_label none = none ∧
      (svc.predict device parsed_json).ret = Except.error PyError.keyError := by
  intro svc device parsed_json s e hget hrun hcase
  have hc := classify_categories_run_error svc device s e hrun
  rw [if_pos hcase] at hc
  refine ⟨by rw [hc], rfl, ?_⟩
  unfold OnnxService.predict
  simp only [hget, hc]
  rfl

/-- Witness for C8: a concrete request against the always-failing session;
`predict` ends in `KeyError`, not in a JSON response. -/
theorem predict_keyerror_on_inference_failure_witness :
    (errSvc.classify_categories Device.cpu (PyVal.str "x")).ret = Except.ok none ∧
    dict_getitem_opt errSvc.news_label none = none ∧
    (errSvc.predict Device.cpu [("text", PyVal.str "x")]).ret =
      Except.error PyError.keyError :=
  predict_keyerror_on_inference_failure errSvc Device.cpu [("text", PyVal.str "x")]
    "x" PyError.runtimeError rfl rfl (Or.inl rfl)

/-- C9: if the parsed JSON body lacks the key `'text'`, `predict` extracts
`None` and hands it to `classify_categories`, whose tokenizer application
raises (model: `AttributeError` from calling a string method on `None`);
`predict` therefore raises instead of returning a category. -/
theorem predict_requires_text_key :
    ∀ (svc : OnnxService) (device : Device) (parsed_json : List (String × PyVal)),
      (∀ p ∈ parsed_json, p.1 ≠ "text") →
      dict_get parsed_json "text" = PyVal.none ∧
      (svc.predict device parsed_json).ret = Except.error PyError.attributeError := by
  intro svc device parsed_json habs
  have hget := dict_get_of_key_absent parsed_json "text" habs
  have hcl := classify_categories_non_str svc device PyVal.none
    (fun s h => PyVal.noConfusion h)
  refine ⟨hget, ?_⟩
  unfold OnnxService.predict
  simp only [hget, hcl]

/-- Witness for C9: a body holding only the key `'body'`. -/
theorem predict_requires_text_key_witness :
    dict_get [(("body" : String), PyVal.int 3)] "text" = PyVal.none ∧
    (okSvc.predict Device.cpu [("body", PyVal.int 3)]).ret =
      Except.error PyError.attributeError :=
  predict_requires_text_key okSvc Device.cpu [("body", PyVal.int 3)] (by decide)

/-- C1: for every JSON request body binding the key `'text'` to a string,
when the packed session's inference succeeds — producing, as the exported
four-class model does, a single row of four scores — `predict` returns a
JSON object of the shape `{'categories': c}` where `c` is one of the four
strings `'World'`, `'Sports'`, `'Business'`, `'Sci/Tec'`, and nothing
else. -/
theorem predict_returns_one_of_four_labels :
    ∀ (tokenizer : String → List String) (vocab : String → Nat)
      (model : InferenceSession) (device : Device)
      (parsed_json : List (String × PyVal)) (s : String) (row : List Int),
      dict_get parsed_json "text" = PyVal.str s →
      model.run [model.outputName] [(model.inputName, (tokenizer s).map vocab)] =
        Except.ok [[row]] →
      row.length = 4 →
      ((OnnxService.init tokenizer vocab model).predict device parsed_json).ret ∈
        [Except.ok [("categories", PyVal.str "World")],
         Except.ok [("categories", PyVal.str "Sports")],
         Except.ok [("categories", PyVal.str "Business")],
         Except.ok [("categories", PyVal.str "Sci/Tec")]] := by
  intro tokenizer vocab model device parsed_json s row hget hrun hlen
  have hrow : row ≠ [] := by
    intro h
    rw [h] at hlen
    simp at hlen
  have hcl := classify_categories_run_ok (OnnxService.init tokenizer vocab model)
    device s row hrow hrun
  have hlt : argmaxIdx row < 4 := by
    cases row with
    | nil => exact absurd rfl hrow
    | cons a as =>
      have hb := argmaxIdx_cons_lt_length a as
      rw [hlen] at hb
      exact hb
  unfold OnnxService.predict
  simp only [hget, hcl]
  have h4 : argmaxIdx row = 0 ∨ argmaxIdx row = 1 ∨ argmaxIdx row = 2 ∨
      argmaxIdx row = 3 := by omega
  rcases h4 with h | h | h | h <;>
    simp [h, dict_getitem_opt, dict_getitem, OnnxService.init, List.find?]

/-- Witness for C1: a concrete request against the always-succeeding
session (scores `[1, 5, 3, 2]`); `predict` answers `'Sports'`. -/
theorem predict_returns_one_of_four_labels_witness :
    (okSvc.predict Device.cpu [("text", PyVal.str "hello")]).ret ∈
      [Except.ok [("categories", PyVal.str "World")],
       Except.ok [("categories", PyVal.str "Sports")],
       Except.ok [("categories", PyVal.str "Business")],
       Except.ok [("categories", PyVal.str "Sci/Tec")]] :=
  predict_returns_one_of_four_labels sampleTokenizer sampleVocab okSession Device.cpu
    [("text", PyVal.str "hello")] "hello" [1, 5, 3, 2] rfl rfl rfl
